import Mathlib

/-!
Shallow embedding of the javascript-obfuscator transformation pipeline.

The embedding covers the two source files of the repository:
  * src/src/JavaScriptObfuscator.ts  — the stage driver (`obfuscate`,
    `transformAstTree`, `generateCode`, `getObfuscationResult`,
    `runCodeTransformationStage`, `runNodeTransformationStage`);
  * src/unnamed/part_000             — the `NodeTransformersRunner`
    (`transform`, `buildNormalizedNodeTransformers`,
    `mergeVisitorsForDirection`).

External collaborators (the acorn parser, the escodegen generator, the
code-transformers runner, the transformer factory, the transformer names
groups builder, the logger, the random generator) are modelled as explicit
function parameters: the driver treats them as opaque injected services, so
every theorem quantifies over them.  Mutation of the AST in place is
rendered as explicit value threading.  The logger is rendered as output
logs carried alongside the result value.
-/

namespace JSObf

/-- The NodeTransformationStage enumeration from
enums/node-transformers/NodeTransformationStage, as used by the driver. -/
inductive NodeTransformationStage : Type where
  | Initializing
  | Preparing
  | DeadCodeInjection
  | ControlFlowFlattening
  | RenameProperties
  | Converting
  | RenameIdentifiers
  | StringArray
  | Simplifying
  | Finalizing
deriving DecidableEq, Repr

/-- The CodeTransformationStage enumeration from
enums/code-transformers/CodeTransformationStage. -/
inductive CodeTransformationStage : Type where
  | PreparingTransformers
  | FinalizingTransformers
deriving DecidableEq, Repr

/-- The LoggingMessage identifiers of the logger interface. -/
inductive LoggingMessage : Type where
  | Version
  | ObfuscationStarted
  | RandomGeneratorSeed
  | CodeTransformationStage
  | NodeTransformationStage
  | EmptySourceCode
  | ObfuscationCompleted
deriving DecidableEq, Repr

/-- The SourceMapSourcesMode enumeration from
enums/source-map/SourceMapSourcesMode. -/
inductive SourceMapSourcesMode : Type where
  | Sources
  | SourcesContent
deriving DecidableEq, Repr

/-- The NodeTransformer name enumeration, with exactly the constructors
referenced by the nodeTransformersList of JavaScriptObfuscator.ts. -/
inductive NodeTransformer : Type where
  | BooleanLiteralTransformer
  | BlockStatementControlFlowTransformer
  | BlockStatementSimplifyTransformer
  | ClassFieldTransformer
  | CommentsTransformer
  | CustomCodeHelpersTransformer
  | DeadCodeInjectionTransformer
  | EscapeSequenceTransformer
  | EvalCallExpressionTransformer
  | ExportSpecifierTransformer
  | ExpressionStatementsMergeTransformer
  | FunctionControlFlowTransformer
  | IfStatementSimplifyTransformer
  | LabeledStatementTransformer
  | RenamePropertiesTransformer
  | MemberExpressionTransformer
  | MetadataTransformer
  | NumberLiteralTransformer
  | NumberToNumericalExpressionTransformer
  | ObfuscatingGuardsTransformer
  | ObjectExpressionKeysTransformer
  | ObjectExpressionTransformer
  | ObjectPatternPropertiesTransformer
  | ParentificationTransformer
  | ScopeIdentifiersTransformer
  | ScopeThroughIdentifiersTransformer
  | SplitStringTransformer
  | StringArrayControlFlowTransformer
  | StringArrayRotateFunctionTransformer
  | StringArrayScopeCallsWrapperTransformer
  | StringArrayTransformer
  | TemplateLiteralTransformer
  | DirectivePlacementTransformer
  | VariableDeclarationsMergeTransformer
  | VariablePreserveTransformer
deriving DecidableEq, Repr

/-- The CodeTransformer name enumeration (only one member is referenced). -/
inductive CodeTransformer : Type where
  | HashbangOperatorTransformer
deriving DecidableEq, Repr

/-- The VisitorDirection enumeration from
enums/node-transformers/VisitorDirection. -/
inductive VisitorDirection : Type where
  | Enter
  | Leave
deriving DecidableEq, Repr

/-- JavaScriptObfuscator.nodeTransformersList: the static catalog of node
transformer names passed to every node transformation stage. -/
def nodeTransformersList : List NodeTransformer :=
  [NodeTransformer.BooleanLiteralTransformer,
   NodeTransformer.BlockStatementControlFlowTransformer,
   NodeTransformer.BlockStatementSimplifyTransformer,
   NodeTransformer.ClassFieldTransformer,
   NodeTransformer.CommentsTransformer,
   NodeTransformer.CustomCodeHelpersTransformer,
   NodeTransformer.DeadCodeInjectionTransformer,
   NodeTransformer.EscapeSequenceTransformer,
   NodeTransformer.EvalCallExpressionTransformer,
   NodeTransformer.ExportSpecifierTransformer,
   NodeTransformer.ExpressionStatementsMergeTransformer,
   NodeTransformer.FunctionControlFlowTransformer,
   NodeTransformer.IfStatementSimplifyTransformer,
   NodeTransformer.LabeledStatementTransformer,
   NodeTransformer.RenamePropertiesTransformer,
   NodeTransformer.MemberExpressionTransformer,
   NodeTransformer.MetadataTransformer,
   NodeTransformer.NumberLiteralTransformer,
   NodeTransformer.NumberToNumericalExpressionTransformer,
   NodeTransformer.ObfuscatingGuardsTransformer,
   NodeTransformer.ObjectExpressionKeysTransformer,
   NodeTransformer.ObjectExpressionTransformer,
   NodeTransformer.ObjectPatternPropertiesTransformer,
   NodeTransformer.ParentificationTransformer,
   NodeTransformer.ScopeIdentifiersTransformer,
   NodeTransformer.ScopeThroughIdentifiersTransformer,
   NodeTransformer.SplitStringTransformer,
   NodeTransformer.StringArrayControlFlowTransformer,
   NodeTransformer.StringArrayRotateFunctionTransformer,
   NodeTransformer.StringArrayScopeCallsWrapperTransformer,
   NodeTransformer.StringArrayTransformer,
   NodeTransformer.TemplateLiteralTransformer,
   NodeTransformer.DirectivePlacementTransformer,
   NodeTransformer.VariableDeclarationsMergeTransformer,
   NodeTransformer.VariablePreserveTransformer]

/-- JavaScriptObfuscator.codeTransformersList: the static catalog of code
transformer names passed to every code transformation stage. -/
def codeTransformersList : List CodeTransformer :=
  [CodeTransformer.HashbangOperatorTransformer]

/-- An ESTree AST node, shallowly embedded with exactly the observations the
embedded code makes of a node: its type tag, its child subtrees (for a
Program node, the body), the truthiness of the leadingComments and
trailingComments fields, and the ignored metadata flag of its metadata bag.
In ESTree a comments field is an array or undefined; the Bool records its
truthiness (present, possibly empty array, versus undefined). -/
inductive ESNode : Type where
  | mk (nodeType : String) (children : List ESNode)
       (leadingComments : Bool) (trailingComments : Bool)
       (ignored : Bool) : ESNode

/-- Type tag of a node (the node.type string). -/
def ESNode.nodeType : ESNode → String
  | .mk t _ _ _ _ => t

/-- Child subtrees of a node; for a Program node this is the body array. -/
def ESNode.children : ESNode → List ESNode
  | .mk _ c _ _ _ => c

/-- Truthiness of the leadingComments field. -/
def ESNode.leadingComments : ESNode → Bool
  | .mk _ _ l _ _ => l

/-- Truthiness of the trailingComments field. -/
def ESNode.trailingComments : ESNode → Bool
  | .mk _ _ _ t _ => t

/-- The ignored flag of the node metadata bag. -/
def ESNode.ignored : ESNode → Bool
  | .mk _ _ _ _ i => i

/-- Rebuild a node with new children, keeping all other fields. -/
def ESNode.withChildren : ESNode → List ESNode → ESNode
  | .mk t _ l tr i, c => .mk t c l tr i

/-- Modelled from the spec: NodeGuards.isProgramNode (node/NodeGuards is not
under src/) checks the node type tag against the Program variant. -/
def NodeGuards.isProgramNode (node : ESNode) : Bool :=
  node.nodeType == "Program"

/-- Modelled from the spec: NodeMetadata.isIgnoredNode (node/NodeMetadata is
not under src/) reads the ignored flag of the node metadata bag. -/
def NodeMetadata.isIgnoredNode (node : ESNode) : Bool :=
  node.ignored

/-- A TVisitorResult value: what a visitor function may return.  The
constructor `node` holds a valid AST node; `skipSubtree` is the
estraverse VisitorOption.Skip sentinel; `invalid` stands for every other
value a callback may produce (undefined, null, a non-node object), all of
which fail the truthiness-and-isNode test in the merged callback. -/
inductive VisitorResult : Type where
  | node (n : ESNode) : VisitorResult
  | skipSubtree : VisitorResult
  | invalid : VisitorResult

/-- Modelled from the spec: NodeGuards.isNode (node/NodeGuards is not under
src/) holds exactly of valid AST nodes. -/
def NodeGuards.isNode : VisitorResult → Bool
  | .node _ => true
  | _ => false

/-- A TVisitorFunction: (node, parentNode) to a TVisitorResult. -/
def TVisitorFunction : Type := ESNode → Option ESNode → VisitorResult

/-- An IVisitor: a pair of optional enter and leave visitor functions. -/
structure IVisitor : Type where
  enter : Option TVisitorFunction
  leave : Option TVisitorFunction

/-- The visitors[i][direction] indexing of the merged-callback loop. -/
def IVisitor.byDirection (v : IVisitor) : VisitorDirection → Option TVisitorFunction
  | .Enter => v.enter
  | .Leave => v.leave

/-- The for-loop body of the merged visitor callback (part_000, lines
223 to 238): iterate the component visitors in order; a component without a
function for this direction is skipped; a component whose result is truthy
and passes NodeGuards.isNode (here: the `node` constructor) replaces the
threaded node; any other result leaves the threaded node unchanged. -/
def runVisitorLoop : List IVisitor → VisitorDirection → ESNode → Option ESNode → ESNode
  | [], _, node, _ => node
  | v :: rest, direction, node, parentNode =>
    match v.byDirection direction with
    | none => runVisitorLoop rest direction node parentNode
    | some visitorFunction =>
      match visitorFunction node parentNode with
      | VisitorResult.node n2 => runVisitorLoop rest direction n2 parentNode
      | _ => runVisitorLoop rest direction node parentNode

/-- NodeTransformersRunner.mergeVisitorsForDirection (part_000, lines 211 to
242): with zero visitors the merged callback returns its node argument
unconditionally; otherwise the merged callback first checks the ignored
metadata flag, returning VisitorOption.Skip when it is set, and then runs
the component loop, returning the final threaded node. -/
def mergeVisitorsForDirection (visitors : List IVisitor) (direction : VisitorDirection) :
    ESNode → Option ESNode → VisitorResult :=
  if visitors.length = 0 then
    fun node _parentNode => VisitorResult.node node
  else
    fun node parentNode =>
      if NodeMetadata.isIgnoredNode node then
        VisitorResult.skipSubtree
      else
        VisitorResult.node (runVisitorLoop visitors direction node parentNode)

/-- One step of threading a node through a component visitor, used to state
the order-and-threading property of the merged callback. -/
def threadStep (direction : VisitorDirection) (parentNode : Option ESNode)
    (node : ESNode) (v : IVisitor) : ESNode :=
  match v.byDirection direction with
  | none => node
  | some visitorFunction =>
    match visitorFunction node parentNode with
    | VisitorResult.node n2 => n2
    | _ => node

/-- Modelled from the spec: the traversal engine behind estraverse.replace
(an external dependency, not under src/), following section 4.1: enter is
invoked on a node; a replacement node is descended into; skip-subtree
suppresses the descent; any other result descends into the original node;
after the (possible) descent, leave is invoked with the same replacement
semantics.  The ignored-flag check of section 4.1 step 1 is performed by
the merged callback of section 4.2, not by the engine.  A fuel argument
makes the recursion through replacement nodes total; every theorem holds
for every fuel value. -/
def replaceTraverse (enter leave : TVisitorFunction) :
    Nat → ESNode → Option ESNode → ESNode
  | 0, node, _ => node
  | fuel + 1, node, parentNode =>
    let entered : ESNode × Bool :=
      match enter node parentNode with
      | VisitorResult.node n2 => (n2, true)
      | VisitorResult.skipSubtree => (node, false)
      | VisitorResult.invalid => (node, true)
    let afterChildren : ESNode :=
      if entered.2 then
        entered.1.withChildren
          (entered.1.children.map (fun c => replaceTraverse enter leave fuel c (some entered.1)))
      else
        entered.1
    match leave afterChildren parentNode with
    | VisitorResult.node n3 => n3
    | _ => afterChildren

/-- An INodeTransformer as observed by the runner: its getVisitor method. -/
structure INodeTransformer : Type where
  getVisitor : NodeTransformationStage → Option IVisitor

/-- A TDictionary of node transformers, as an association list with unique
keys in insertion order (the JS object literal spread keeps the position of
an existing key and appends a new key). -/
def TransformerDictionary : Type := List (NodeTransformer × INodeTransformer)

/-- JS object spread update used by buildNormalizedNodeTransformers: an
existing key keeps its position with the new value; a new key is appended. -/
def dictInsert : TransformerDictionary → NodeTransformer → INodeTransformer → TransformerDictionary
  | [], k, v => [(k, v)]
  | (k0, v0) :: rest, k, v =>
    if k0 = k then (k0, v) :: rest else (k0, v0) :: dictInsert rest k v

/-- Property access on the dictionary. -/
def dictLookup : TransformerDictionary → NodeTransformer → Option INodeTransformer
  | [], _ => none
  | (k0, v0) :: rest, k => if k0 = k then some v0 else dictLookup rest k

/-- NodeTransformersRunner.buildNormalizedNodeTransformers (part_000, lines
184 to 204): reduce over the transformer names, instantiating each through
the factory and keeping only those whose getVisitor for this stage is
non-null. -/
def buildNormalizedNodeTransformers
    (nodeTransformerFactory : NodeTransformer → INodeTransformer)
    (nodeTransformerNames : List NodeTransformer)
    (nodeTransformationStage : NodeTransformationStage) : TransformerDictionary :=
  nodeTransformerNames.foldl
    (fun acc nodeTransformerName =>
      let nodeTransformer := nodeTransformerFactory nodeTransformerName
      match nodeTransformer.getVisitor nodeTransformationStage with
      | none => acc
      | some _ => dictInsert acc nodeTransformerName nodeTransformer)
    []

/-- Build a single-direction IVisitor entry as pushed by the collection loop
of transform: an object holding only the enter function, or only the leave
function. -/
def directionalVisitor : VisitorDirection → TVisitorFunction → IVisitor
  | .Enter, f => { enter := some f, leave := none }
  | .Leave, f => { enter := none, leave := some f }

/-- The visitor collection loop of transform (part_000, lines 148 to 163)
restricted to one direction: for each name of the group, look the
transformer up in the normalized dictionary, fetch its visitor for the
stage, and push the direction function when it is present.  The source
builds both direction lists in one pass over the group; collecting each
direction separately over the same group is equivalent because lookups are
pure. -/
def collectVisitors (normalized : TransformerDictionary)
    (group : List NodeTransformer)
    (nodeTransformationStage : NodeTransformationStage)
    (direction : VisitorDirection) : List IVisitor :=
  group.foldl
    (fun acc nodeTransformerName =>
      match dictLookup normalized nodeTransformerName with
      | none => acc
      | some nodeTransformer =>
        match nodeTransformer.getVisitor nodeTransformationStage with
        | none => acc
        | some visitor =>
          match visitor.byDirection direction with
          | none => acc
          | some f => acc ++ [directionalVisitor direction f])
    []

/-- NodeTransformersRunner.transform (part_000, lines 125 to 176).  An empty
transformer name list returns the tree at once.  Otherwise the normalized
dictionary is built, the groups builder (an injected collaborator) splits
the names into batches, and for each batch the enter and leave visitors are
collected and, unless both lists are empty, one estraverse.replace
traversal runs with the merged callbacks.  estraverse mutates the tree in
place, which this pure rendering models by threading the traversal result
into the next batch. -/
def NodeTransformersRunner.transform
    (nodeTransformerFactory : NodeTransformer → INodeTransformer)
    (groupsBuilder : TransformerDictionary → List (List NodeTransformer))
    (fuel : Nat)
    (astTree : ESNode)
    (nodeTransformerNames : List NodeTransformer)
    (nodeTransformationStage : NodeTransformationStage) : ESNode :=
  if nodeTransformerNames.length = 0 then
    astTree
  else
    let normalizedNodeTransformers :=
      buildNormalizedNodeTransformers nodeTransformerFactory nodeTransformerNames nodeTransformationStage
    let nodeTransformerNamesGroups := groupsBuilder normalizedNodeTransformers
    nodeTransformerNamesGroups.foldl
      (fun tree nodeTransformerNamesGroup =>
        let enterVisitors :=
          collectVisitors normalizedNodeTransformers nodeTransformerNamesGroup
            nodeTransformationStage VisitorDirection.Enter
        let leaveVisitors :=
          collectVisitors normalizedNodeTransformers nodeTransformerNamesGroup
            nodeTransformationStage VisitorDirection.Leave
        if enterVisitors.length = 0 && leaveVisitors.length = 0 then
          tree
        else
          replaceTraverse
            (mergeVisitorsForDirection enterVisitors VisitorDirection.Enter)
            (mergeVisitorsForDirection leaveVisitors VisitorDirection.Leave)
            fuel tree none)
      astTree

/-- The configuration options the driver consults (IOptions restricted to
the fields the two source files read).  inputFileName is a string whose
empty value is falsy in the JS or-expression. -/
structure ObfOptions : Type where
  compact : Bool
  deadCodeInjection : Bool
  renameProperties : Bool
  simplify : Bool
  sourceMap : Bool
  sourceMapSourcesMode : SourceMapSourcesMode
  inputFileName : String
deriving DecidableEq, Repr

/-- The escodegen options record assembled by generateCode, with one field
per key the source can place in the object: the three static
escodegenParams keys, the format.compact flag, and the optional sourceMap
and sourceContent keys (absent keys are none). -/
structure EscodegenParams : Type where
  comment : Bool
  verbatim : Option String
  sourceMapWithCode : Bool
  formatCompact : Bool
  sourceMap : Option String
  sourceContent : Option String
deriving DecidableEq, Repr

/-- The JS or-fallback for falsy strings: the empty string is falsy, so
`a or-else b` yields b when a is empty. -/
def stringOrDefault (a b : String) : String :=
  if a = "" then b else a

/-- The conditional spread `...this.options.sourceMap && { ... }` of
generateCode (JavaScriptObfuscator.ts, lines 272 to 281): when sourceMap is
disabled the spread contributes no keys (none); when enabled, the
SourcesContent mode contributes the sourceMap sentinel together with the
sourceContent, and any other mode contributes only a source map file name
(the inputFileName, or the sentinel when the inputFileName is empty). -/
def sourceMapSpreadFields (options : ObfOptions) (sourceCode : String) :
    Option (Option String × Option String) :=
  if options.sourceMap then
    some
      (if options.sourceMapSourcesMode = SourceMapSourcesMode.SourcesContent then
        (some "sourceMap", some sourceCode)
      else
        (some (stringOrDefault options.inputFileName "sourceMap"), none))
  else
    none

/-- The full escodegen options record built by generateCode: the static
escodegenParams base, the format.compact flag from configuration, and the
conditional source map spread. -/
def buildEscodegenParams (options : ObfOptions) (sourceCode : String) : EscodegenParams :=
  let base : EscodegenParams :=
    { comment := true
      verbatim := some "x-verbatim-property"
      sourceMapWithCode := true
      formatCompact := options.compact
      sourceMap := none
      sourceContent := none }
  match sourceMapSpreadFields options sourceCode with
  | none => base
  | some (sm, sc) => { base with sourceMap := sm, sourceContent := sc }

/-- The source map object escodegen places in its output: an opaque
serializable value with a toString conversion. -/
structure SourceMapObject : Type where
  content : String
deriving DecidableEq, Repr

/-- The toString conversion applied to the generator map object. -/
def SourceMapObject.toStr (m : SourceMapObject) : String :=
  m.content

/-- The raw IGeneratorOutput produced by escodegen: a code string and a map
that is either a map object or absent (undefined). -/
structure RawGeneratorOutput : Type where
  code : String
  map : Option SourceMapObject

/-- The IGeneratorOutput after generateCode normalizes the map field: the
map is always a string. -/
structure GeneratorOutput : Type where
  code : String
  map : String
deriving DecidableEq, Repr

/-- JavaScriptObfuscator.generateCode (lines 266 to 289): build the
escodegen params from configuration and the source text, invoke the
generator, and replace the map with its string conversion, or with the
empty string when the generator produced no map. -/
def generateCode (options : ObfOptions)
    (escodegenGenerate : ESNode → EscodegenParams → RawGeneratorOutput)
    (sourceCode : String) (astTree : ESNode) : GeneratorOutput :=
  let escodegenParams := buildEscodegenParams options sourceCode
  let generatorOutput := escodegenGenerate astTree escodegenParams
  { code := generatorOutput.code
    map :=
      match generatorOutput.map with
      | some m => m.toStr
      | none => "" }

/-- The IObfuscationResult value: the obfuscated code and its source map. -/
structure ObfuscationResult : Type where
  code : String
  sourceMap : String
deriving DecidableEq, Repr

/-- Modelled from the spec: the obfuscation result factory (an injected
collaborator, not under src/) stores the (code, map) pair it is given as
the fields of the result. -/
def obfuscationResultFactory (code sourceMap : String) : ObfuscationResult :=
  { code := code, sourceMap := sourceMap }

/-- JavaScriptObfuscator.getObfuscationResult (lines 295 to 297): hand the
generator output code and map to the result factory. -/
def getObfuscationResult (generatorOutput : GeneratorOutput) : ObfuscationResult :=
  obfuscationResultFactory generatorOutput.code generatorOutput.map

/-- Output of transformAstTree: the transformed tree together with the node
stage identifiers logged (one logger.info per runNodeTransformationStage
call, in order) and the warnings logged. -/
structure StageRunOutput : Type where
  astTree : ESNode
  stageLog : List NodeTransformationStage
  warnLog : List LoggingMessage

/-- The isEmptyAstTree test of transformAstTree (lines 221 to 224): a
Program node with empty body and falsy leadingComments and
trailingComments. -/
def isEmptyAstTree (astTree : ESNode) : Bool :=
  NodeGuards.isProgramNode astTree
    && astTree.children.length = 0
    && !astTree.leadingComments
    && !astTree.trailingComments

/-- JavaScriptObfuscator.transformAstTree (lines 216 to 259), with
runNodeTransformationStage inlined as one nodeRunner call plus one stage
log entry per stage.  The nodeRunner parameter stands for the injected
nodeTransformersRunner.transform, always invoked with the static
nodeTransformersList.  After Initializing, an empty tree logs the
EmptySourceCode warning and returns at once; otherwise the remaining
stages run, with DeadCodeInjection, RenameProperties and Simplifying
guarded by their options. -/
def transformAstTree (options : ObfOptions)
    (nodeRunner : ESNode → List NodeTransformer → NodeTransformationStage → ESNode)
    (astTree0 : ESNode) : StageRunOutput :=
  let t1 := nodeRunner astTree0 nodeTransformersList NodeTransformationStage.Initializing
  if isEmptyAstTree t1 then
    { astTree := t1
      stageLog := [NodeTransformationStage.Initializing]
      warnLog := [LoggingMessage.EmptySourceCode] }
  else
    let t2 := nodeRunner t1 nodeTransformersList NodeTransformationStage.Preparing
    let d : ESNode × List NodeTransformationStage :=
      if options.deadCodeInjection then
        (nodeRunner t2 nodeTransformersList NodeTransformationStage.DeadCodeInjection,
         [NodeTransformationStage.DeadCodeInjection])
      else (t2, [])
    let t4 := nodeRunner d.1 nodeTransformersList NodeTransformationStage.ControlFlowFlattening
    let r : ESNode × List NodeTransformationStage :=
      if options.renameProperties then
        (nodeRunner t4 nodeTransformersList NodeTransformationStage.RenameProperties,
         [NodeTransformationStage.RenameProperties])
      else (t4, [])
    let t6 := nodeRunner r.1 nodeTransformersList NodeTransformationStage.Converting
    let t7 := nodeRunner t6 nodeTransformersList NodeTransformationStage.RenameIdentifiers
    let t8 := nodeRunner t7 nodeTransformersList NodeTransformationStage.StringArray
    let s : ESNode × List NodeTransformationStage :=
      if options.simplify then
        (nodeRunner t8 nodeTransformersList NodeTransformationStage.Simplifying,
         [NodeTransformationStage.Simplifying])
      else (t8, [])
    let t10 := nodeRunner s.1 nodeTransformersList NodeTransformationStage.Finalizing
    { astTree := t10
      stageLog :=
        NodeTransformationStage.Initializing :: NodeTransformationStage.Preparing ::
          (d.2 ++ NodeTransformationStage.ControlFlowFlattening ::
            (r.2 ++ NodeTransformationStage.Converting ::
              NodeTransformationStage.RenameIdentifiers ::
                NodeTransformationStage.StringArray ::
                  (s.2 ++ [NodeTransformationStage.Finalizing])))
      warnLog := [] }

/-- The value an obfuscate call may receive as its sourceCode argument: a
string, or any non-string value (the description is an opaque tag). -/
inductive SourceInput : Type where
  | str (s : String) : SourceInput
  | nonString (description : String) : SourceInput

/-- The typeof guard at the top of obfuscate (lines 162 to 164): a
non-string input is coerced to the empty string. -/
def coerceSourceInput : SourceInput → String
  | .str s => s
  | .nonString _ => ""

/-- The process environment values read for the version log message. -/
structure EnvInfo : Type where
  version : Option String
  buildTimestamp : Option String

/-- Payloads of the info and success log calls of obfuscate. -/
inductive LogEvent : Type where
  | version (v buildTs : Option String) : LogEvent
  | started : LogEvent
  | seed (s : String) : LogEvent
  | completed (elapsedMs : Nat) : LogEvent

/-- The injected collaborators of the driver: the code transformers runner,
the acorn parser facade, the node transformers runner, the escodegen
generator, and the input seed of the random generator.  Each is a pure
function; a fixed random seed makes the real collaborators functions of
their arguments, which is exactly this modelling. -/
structure Collaborators : Type where
  codeRunner : String → List CodeTransformer → CodeTransformationStage → String
  parse : String → ESNode
  nodeRunner : ESNode → List NodeTransformer → NodeTransformationStage → ESNode
  escodegenGenerate : ESNode → EscodegenParams → RawGeneratorOutput

/-- Everything one obfuscate call produces: the result handed back to the
caller and the logger traffic (node stage log, code stage log, warnings,
info and success events). -/
structure ObfuscateOutput : Type where
  result : ObfuscationResult
  nodeStageLog : List NodeTransformationStage
  codeStageLog : List CodeTransformationStage
  warnLog : List LoggingMessage
  infoLog : List LogEvent

/-- JavaScriptObfuscator.obfuscate (lines 161 to 202): coerce a non-string
input to the empty string; log version, start and seed; run the
PreparingTransformers code stage; parse; run the node stages through
transformAstTree; generate code from the transformed tree and the prepared
source; run the FinalizingTransformers code stage on the generated code;
log completion with the elapsed time (the division by 1000 for display is
elided, the elapsed milliseconds are recorded); and build the result
through the factory.  Date.now readings and process.env are explicit
parameters, used only in log payloads. -/
def obfuscate (options : ObfOptions) (c : Collaborators) (inputSeed : String)
    (env : EnvInfo) (timeStart timeEnd : Nat) (input : SourceInput) : ObfuscateOutput :=
  let sourceCode0 := coerceSourceInput input
  let sourceCode1 :=
    c.codeRunner sourceCode0 codeTransformersList CodeTransformationStage.PreparingTransformers
  let astTree := c.parse sourceCode1
  let stageOut := transformAstTree options c.nodeRunner astTree
  let generatorOutput := generateCode options c.escodegenGenerate sourceCode1 stageOut.astTree
  let finalCode :=
    c.codeRunner generatorOutput.code codeTransformersList CodeTransformationStage.FinalizingTransformers
  { result := getObfuscationResult { generatorOutput with code := finalCode }
    nodeStageLog := stageOut.stageLog
    codeStageLog :=
      [CodeTransformationStage.PreparingTransformers, CodeTransformationStage.FinalizingTransformers]
    warnLog := stageOut.warnLog
    infoLog :=
      [LogEvent.version env.version env.buildTimestamp, LogEvent.started,
       LogEvent.seed inputSeed, LogEvent.completed (timeEnd - timeStart)] }

/-- The canonical node stage order of the specification, section 4.4, with
the three optional stages guarded by their options.  This definition
follows the words of the spec; the theorems compare it with the
transformAstTree definition taken from the source. -/
def canonicalStages (options : ObfOptions) : List NodeTransformationStage :=
  [NodeTransformationStage.Initializing, NodeTransformationStage.Preparing]
    ++ (if options.deadCodeInjection then [NodeTransformationStage.DeadCodeInjection] else [])
    ++ [NodeTransformationStage.ControlFlowFlattening]
    ++ (if options.renameProperties then [NodeTransformationStage.RenameProperties] else [])
    ++ [NodeTransformationStage.Converting, NodeTransformationStage.RenameIdentifiers,
        NodeTransformationStage.StringArray]
    ++ (if options.simplify then [NodeTransformationStage.Simplifying] else [])
    ++ [NodeTransformationStage.Finalizing]

/-! Theorems. -/

/-- The indexed component loop of the merged callback equals a left fold of
the single-component threading step over the visitor list. -/
theorem runVisitorLoop_eq_foldl (direction : VisitorDirection) (parentNode : Option ESNode) :
    ∀ (visitors : List IVisitor) (node : ESNode),
      runVisitorLoop visitors direction node parentNode =
        visitors.foldl (threadStep direction parentNode) node := by
  intro visitors
  induction visitors with
  | nil => intro node; rfl
  | cons v rest ih =>
    intro node
    cases hv : v.byDirection direction with
    | none => simp [runVisitorLoop, threadStep, hv, ih]
    | some f =>
      cases hr : f node parentNode with
      | node n2 => simp [runVisitorLoop, threadStep, hv, hr, ih]
      | skipSubtree => simp [runVisitorLoop, threadStep, hv, hr, ih]
      | invalid => simp [runVisitorLoop, threadStep, hv, hr, ih]

/-- C3: for every fused visitor callback built for a batch and a direction,
on a node whose ignored flag is clear the component visitor functions are
executed in the batch order, threading the node through: each component
result that is a valid AST node becomes the input of the next component,
any other result is ignored and the previous node is passed on unchanged,
and the fused callback returns the final threaded node. -/
theorem C3_fused_visitor_threading (visitors : List IVisitor) (direction : VisitorDirection)
    (node : ESNode) (parentNode : Option ESNode)
    (hIgn : NodeMetadata.isIgnoredNode node = false) :
    mergeVisitorsForDirection visitors direction node parentNode =
      VisitorResult.node (visitors.foldl (threadStep direction parentNode) node) := by
  unfold mergeVisitorsForDirection
  by_cases h : visitors.length = 0
  · have hnil : visitors = [] := List.length_eq_zero.mp h
    subst hnil
    simp
  · simp [h, hIgn, runVisitorLoop_eq_foldl]

/-- Sample node used by the witnesses: a plain identifier node. -/
def sampleNodeA : ESNode := ESNode.mk "Identifier" [] false false false

/-- Sample node used by the witnesses: a plain literal node. -/
def sampleNodeB : ESNode := ESNode.mk "Literal" [] false false false

/-- Sample component visitor replacing every node by sampleNodeA. -/
def sampleVisitorFnA : TVisitorFunction := fun _ _ => VisitorResult.node sampleNodeA

/-- Sample component visitor producing an invalid (non-node) result. -/
def sampleVisitorFnInvalid : TVisitorFunction := fun _ _ => VisitorResult.invalid

/-- Sample enter-direction visitor batch with two components. -/
def sampleVisitors : List IVisitor :=
  [{ enter := some sampleVisitorFnA, leave := none },
   { enter := some sampleVisitorFnInvalid, leave := none }]

/-- Witness for C3 at a concrete batch of two components and a concrete
non-ignored node. -/
theorem C3_fused_visitor_threading_witness :
    NodeMetadata.isIgnoredNode sampleNodeB = false
    ∧ mergeVisitorsForDirection sampleVisitors VisitorDirection.Enter sampleNodeB none =
        VisitorResult.node
          (sampleVisitors.foldl (threadStep VisitorDirection.Enter none) sampleNodeB) :=
  ⟨rfl, C3_fused_visitor_threading sampleVisitors VisitorDirection.Enter sampleNodeB none rfl⟩

/-- Sample ignored node with no children. -/
def ignoredNode0 : ESNode := ESNode.mk "FunctionExpression" [] false false true

/-- Sample ignored node with one non-ignored child statement. -/
def ignoredParent0 : ESNode :=
  ESNode.mk "Program" [ESNode.mk "ExpressionStatement" [] false false false] false false true

/-- Sample leave-direction visitor batch with one component. -/
def sampleLeaveVisitors : List IVisitor :=
  [{ enter := none, leave := some sampleVisitorFnA }]

/-- C4 counterexample: the merged callback built from an empty component
list for a direction (which NodeTransformersRunner.transform does build and
hand to the traversal whenever the other direction is non-empty) returns
its input node, not the skip-subtree sentinel, on an ignored node; and in a
traversal whose enter direction has no components while the leave direction
has one, an ignored node has a child of its subtree rewritten, so the
subtree does not receive zero visitor invocations. -/
theorem C4_ignored_node_skip_counterexample :
    mergeVisitorsForDirection [] VisitorDirection.Enter ignoredNode0 none =
        VisitorResult.node ignoredNode0
    ∧ mergeVisitorsForDirection [] VisitorDirection.Enter ignoredNode0 none ≠
        VisitorResult.skipSubtree
    ∧ replaceTraverse (mergeVisitorsForDirection [] VisitorDirection.Enter)
        (mergeVisitorsForDirection sampleLeaveVisitors VisitorDirection.Leave)
        2 ignoredParent0 none =
        ESNode.mk "Program" [sampleNodeA] false false true
    ∧ replaceTraverse (mergeVisitorsForDirection [] VisitorDirection.Enter)
        (mergeVisitorsForDirection sampleLeaveVisitors VisitorDirection.Leave)
        2 ignoredParent0 none ≠ ignoredParent0 := by
  refine ⟨rfl, by simp [mergeVisitorsForDirection], rfl, ?_⟩
  intro h
  rw [show replaceTraverse (mergeVisitorsForDirection [] VisitorDirection.Enter)
        (mergeVisitorsForDirection sampleLeaveVisitors VisitorDirection.Leave)
        2 ignoredParent0 none = ESNode.mk "Program" [sampleNodeA] false false true from rfl] at h
  simp [ignoredParent0, sampleNodeA] at h

/-- When the enter callback answers skip-subtree on a node, the traversal
does not descend and the node is subject only to the leave callback. -/
theorem replaceTraverse_enter_skip (enter leave : TVisitorFunction) (fuel : Nat)
    (node : ESNode) (parentNode : Option ESNode)
    (hE : enter node parentNode = VisitorResult.skipSubtree) :
    replaceTraverse enter leave (fuel + 1) node parentNode =
      (match leave node parentNode with
       | VisitorResult.node n3 => n3
       | _ => node) := by
  unfold replaceTraverse
  rw [hE]
  rfl

/-- C4 amended: for every node passed to a fused visitor callback built from
at least one component visitor, if the ignored metadata flag of the node is
set then the fused callback returns the skip-subtree sentinel, whatever the
component visitors are (so none of them can influence the result on that
node); consequently, in a traversal whose enter-direction fused callback is
built from at least one component, an ignored node and its entire subtree
pass through the traversal unchanged, for every choice of component
visitors of either direction. -/
theorem C4_ignored_node_skip_amended (visitors leaveVisitors : List IVisitor)
    (direction : VisitorDirection) (node : ESNode) (parentNode : Option ESNode) (fuel : Nat)
    (hV : visitors.length ≠ 0)
    (hIgn : NodeMetadata.isIgnoredNode node = true) :
    mergeVisitorsForDirection visitors direction node parentNode = VisitorResult.skipSubtree
    ∧ replaceTraverse (mergeVisitorsForDirection visitors VisitorDirection.Enter)
        (mergeVisitorsForDirection leaveVisitors VisitorDirection.Leave)
        fuel node parentNode = node := by
  have hmerge : ∀ d : VisitorDirection,
      mergeVisitorsForDirection visitors d node parentNode = VisitorResult.skipSubtree := by
    intro d
    unfold mergeVisitorsForDirection
    simp [hV, hIgn]
  refine ⟨hmerge direction, ?_⟩
  cases fuel with
  | zero => rfl
  | succ n =>
    rw [replaceTraverse_enter_skip _ _ n node parentNode (hmerge VisitorDirection.Enter)]
    by_cases hL : leaveVisitors.length = 0
    · have hleave : mergeVisitorsForDirection leaveVisitors VisitorDirection.Leave node parentNode =
          VisitorResult.node node := by
        unfold mergeVisitorsForDirection
        simp [hL]
      rw [hleave]
    · have hleave : mergeVisitorsForDirection leaveVisitors VisitorDirection.Leave node parentNode =
          VisitorResult.skipSubtree := by
        unfold mergeVisitorsForDirection
        simp [hL, hIgn]
      rw [hleave]

/-- Witness for the amended C4 at concrete one-component batches, a concrete
ignored node and fuel 2. -/
theorem C4_ignored_node_skip_amended_witness :
    sampleLeaveVisitors.length ≠ 0
    ∧ NodeMetadata.isIgnoredNode ignoredParent0 = true
    ∧ (mergeVisitorsForDirection sampleLeaveVisitors VisitorDirection.Leave ignoredParent0 none =
          VisitorResult.skipSubtree
        ∧ replaceTraverse (mergeVisitorsForDirection sampleLeaveVisitors VisitorDirection.Enter)
            (mergeVisitorsForDirection sampleLeaveVisitors VisitorDirection.Leave)
            2 ignoredParent0 none = ignoredParent0) :=
  ⟨by decide, rfl,
   C4_ignored_node_skip_amended sampleLeaveVisitors sampleLeaveVisitors
     VisitorDirection.Leave ignoredParent0 none 2 (by decide) rfl⟩

/-- C9: calling NodeTransformersRunner.transform with an empty list of
transformer names returns the input AST tree unchanged for every factory,
groups builder, fuel, tree and stage: no transformer is instantiated and no
traversal is performed, as the result does not depend on any of them. -/
theorem C9_transform_empty_transformer_list
    (nodeTransformerFactory : NodeTransformer → INodeTransformer)
    (groupsBuilder : TransformerDictionary → List (List NodeTransformer))
    (fuel : Nat) (astTree : ESNode) (stage : NodeTransformationStage) :
    NodeTransformersRunner.transform nodeTransformerFactory groupsBuilder fuel astTree [] stage =
      astTree := rfl

/-- C10: when a batch contributes zero visitor functions for a direction,
the merged callback for that direction returns the input node unchanged for
every node and parent, and never returns the skip-subtree sentinel, even on
a node whose ignored metadata flag is set. -/
theorem C10_merge_empty_visitors_identity (direction : VisitorDirection)
    (node : ESNode) (parentNode : Option ESNode) :
    mergeVisitorsForDirection [] direction node parentNode = VisitorResult.node node
    ∧ mergeVisitorsForDirection [] direction node parentNode ≠ VisitorResult.skipSubtree :=
  ⟨rfl, by simp [mergeVisitorsForDirection]⟩

/-- A Program node with empty body, no comments, not ignored. -/
def emptyProgramNode : ESNode := ESNode.mk "Program" [] false false false

/-- Trivial concrete collaborators: identity code runner, parser returning
the empty program, identity node runner, generator returning empty code and
no map. -/
def trivialCollaborators : Collaborators :=
  { codeRunner := fun s _ _ => s
    parse := fun _ => emptyProgramNode
    nodeRunner := fun t _ _ => t
    escodegenGenerate := fun _ _ => { code := "", map := none } }

/-- Environment with no version information. -/
def envNone : EnvInfo := { version := none, buildTimestamp := none }

/-- Configuration with every optional pipeline switch off. -/
def obfOptionsAllOff : ObfOptions :=
  { compact := true
    deadCodeInjection := false
    renameProperties := false
    simplify := false
    sourceMap := false
    sourceMapSourcesMode := SourceMapSourcesMode.Sources
    inputFileName := "" }

/-- C1 counterexample: an obfuscation call on the empty source, whose
Program is empty after Initializing, produces the node stage order
consisting of Initializing alone; in particular the Preparing stage, which
the claim says runs unconditionally on every call, does not run, so the
claimed order is not the only order ever produced. -/
theorem C1_stage_order_counterexample :
    (obfuscate obfOptionsAllOff trivialCollaborators "" envNone 0 0
        (SourceInput.str "")).nodeStageLog = [NodeTransformationStage.Initializing]
    ∧ NodeTransformationStage.Preparing ∉
        (obfuscate obfOptionsAllOff trivialCollaborators "" envNone 0 0
          (SourceInput.str "")).nodeStageLog := by
  refine ⟨rfl, ?_⟩
  intro h
  rw [show (obfuscate obfOptionsAllOff trivialCollaborators "" envNone 0 0
        (SourceInput.str "")).nodeStageLog = [NodeTransformationStage.Initializing] from rfl] at h
  simp at h

/-- C1 amended: for every obfuscation call, when the Program after the
Initializing stage is non-empty the driver runs the node stages in the
canonical order with DeadCodeInjection, RenameProperties and Simplifying
present exactly when their options are enabled and every other listed stage
present unconditionally; when that Program is empty (empty body, no
leading or trailing comments) only Initializing runs; and no other node
stage order is ever produced. -/
theorem C1_stage_order_amended (options : ObfOptions) (c : Collaborators) (inputSeed : String)
    (env : EnvInfo) (timeStart timeEnd : Nat) (input : SourceInput) :
    (obfuscate options c inputSeed env timeStart timeEnd input).nodeStageLog =
      (if isEmptyAstTree
            (c.nodeRunner
              (c.parse (c.codeRunner (coerceSourceInput input) codeTransformersList
                CodeTransformationStage.PreparingTransformers))
              nodeTransformersList NodeTransformationStage.Initializing)
       then [NodeTransformationStage.Initializing]
       else canonicalStages options) := by
  unfold obfuscate transformAstTree
  by_cases h : isEmptyAstTree
      (c.nodeRunner
        (c.parse (c.codeRunner (coerceSourceInput input) codeTransformersList
          CodeTransformationStage.PreparingTransformers))
        nodeTransformersList NodeTransformationStage.Initializing) = true
  · simp [h]
  · simp only [Bool.not_eq_true] at h
    cases hd : options.deadCodeInjection <;> cases hr : options.renameProperties <;>
      cases hs : options.simplify <;>
        simp [h, hd, hr, hs, canonicalStages]

/-- C2: when the Program after Initializing has an empty body and no leading
or trailing comments, the driver logs the EmptySourceCode warning exactly
once, runs none of the remaining node stages, raises no error, and code
generation still proceeds on that empty tree, so the call returns the
result of generating from it and finalizing. -/
theorem C2_empty_program_short_circuit (options : ObfOptions) (c : Collaborators)
    (inputSeed : String) (env : EnvInfo) (timeStart timeEnd : Nat) (input : SourceInput)
    (hEmpty : isEmptyAstTree
        (c.nodeRunner
          (c.parse (c.codeRunner (coerceSourceInput input) codeTransformersList
            CodeTransformationStage.PreparingTransformers))
          nodeTransformersList NodeTransformationStage.Initializing) = true) :
    (obfuscate options c inputSeed env timeStart timeEnd input).nodeStageLog =
        [NodeTransformationStage.Initializing]
    ∧ (obfuscate options c inputSeed env timeStart timeEnd input).warnLog =
        [LoggingMessage.EmptySourceCode]
    ∧ (obfuscate options c inputSeed env timeStart timeEnd input).result =
        (let sourceCode1 := c.codeRunner (coerceSourceInput input) codeTransformersList
          CodeTransformationStage.PreparingTransformers
         let t1 := c.nodeRunner (c.parse sourceCode1) nodeTransformersList
          NodeTransformationStage.Initializing
         let generatorOutput := generateCode options c.escodegenGenerate sourceCode1 t1
         getObfuscationResult
          { generatorOutput with
            code := c.codeRunner generatorOutput.code codeTransformersList
              CodeTransformationStage.FinalizingTransformers }) := by
  unfold obfuscate transformAstTree
  simp [hEmpty]

/-- Witness for C2 at the trivial collaborators and the empty source. -/
theorem C2_empty_program_short_circuit_witness :
    isEmptyAstTree
        (trivialCollaborators.nodeRunner
          (trivialCollaborators.parse
            (trivialCollaborators.codeRunner (coerceSourceInput (SourceInput.str ""))
              codeTransformersList CodeTransformationStage.PreparingTransformers))
          nodeTransformersList NodeTransformationStage.Initializing) = true
    ∧ ((obfuscate obfOptionsAllOff trivialCollaborators "" envNone 0 0
          (SourceInput.str "")).nodeStageLog = [NodeTransformationStage.Initializing]
        ∧ (obfuscate obfOptionsAllOff trivialCollaborators "" envNone 0 0
            (SourceInput.str "")).warnLog = [LoggingMessage.EmptySourceCode]
        ∧ (obfuscate obfOptionsAllOff trivialCollaborators "" envNone 0 0
            (SourceInput.str "")).result = { code := "", sourceMap := "" }) :=
  ⟨rfl,
   C2_empty_program_short_circuit obfOptionsAllOff trivialCollaborators "" envNone 0 0
     (SourceInput.str "") rfl⟩

/-- C5: an obfuscate call on any non-string source coerces it to the empty
string before any pipeline step runs, so the whole output (result and all
logs) is exactly that of a call on the empty string; in particular the call
does not fail. -/
theorem C5_non_string_source_coercion (options : ObfOptions) (c : Collaborators)
    (inputSeed : String) (env : EnvInfo) (timeStart timeEnd : Nat) (v : String) :
    obfuscate options c inputSeed env timeStart timeEnd (SourceInput.nonString v) =
      obfuscate options c inputSeed env timeStart timeEnd (SourceInput.str "") := rfl

/-- C6: the generator options derive from configuration: the compact option
becomes the format compact flag; the generator is invoked with exactly
these options; with source maps enabled and the SourcesContent mode, the
sourceMap sentinel is attached and the original (prepared) source text is
embedded as sourceContent; with source maps enabled and the Sources mode,
only a source map file name (the inputFileName, or the sentinel when it is
empty) is attached and no source content is embedded; with source maps
disabled, neither key is attached. -/
theorem C6_generator_options_derivation (options : ObfOptions) (sourceCode : String)
    (escodegenGenerate : ESNode → EscodegenParams → RawGeneratorOutput) (astTree : ESNode) :
    (buildEscodegenParams options sourceCode).formatCompact = options.compact
    ∧ (generateCode options escodegenGenerate sourceCode astTree).code =
        (escodegenGenerate astTree (buildEscodegenParams options sourceCode)).code
    ∧ (options.sourceMap = true →
        options.sourceMapSourcesMode = SourceMapSourcesMode.SourcesContent →
        (buildEscodegenParams options sourceCode).sourceMap = some "sourceMap"
          ∧ (buildEscodegenParams options sourceCode).sourceContent = some sourceCode)
    ∧ (options.sourceMap = true →
        options.sourceMapSourcesMode = SourceMapSourcesMode.Sources →
        (buildEscodegenParams options sourceCode).sourceMap =
            some (stringOrDefault options.inputFileName "sourceMap")
          ∧ (buildEscodegenParams options sourceCode).sourceContent = none)
    ∧ (options.sourceMap = false →
        (buildEscodegenParams options sourceCode).sourceMap = none
          ∧ (buildEscodegenParams options sourceCode).sourceContent = none) := by
  refine ⟨?_, rfl, ?_, ?_, ?_⟩
  · unfold buildEscodegenParams
    rcases hs : sourceMapSpreadFields options sourceCode with _ | ⟨sm, sc⟩ <;> simp
  · intro h1 h2
    unfold buildEscodegenParams sourceMapSpreadFields
    simp [h1, h2]
  · intro h1 h2
    unfold buildEscodegenParams sourceMapSpreadFields
    simp [h1, h2]
  · intro h1
    unfold buildEscodegenParams sourceMapSpreadFields
    simp [h1]

/-- Configuration with source maps on in SourcesContent mode. -/
def optsSourcesContent : ObfOptions :=
  { obfOptionsAllOff with
    sourceMap := true
    sourceMapSourcesMode := SourceMapSourcesMode.SourcesContent }

/-- Configuration with source maps on in Sources mode and a file name. -/
def optsSourcesMode : ObfOptions :=
  { obfOptionsAllOff with
    sourceMap := true
    sourceMapSourcesMode := SourceMapSourcesMode.Sources
    inputFileName := "input.js" }

/-- Sample generator producing fixed code and no map. -/
def sampleGenerate : ESNode → EscodegenParams → RawGeneratorOutput :=
  fun _ _ => { code := "out", map := none }

/-- Sample generator producing fixed code and a map object. -/
def sampleGenerateWithMap : ESNode → EscodegenParams → RawGeneratorOutput :=
  fun _ _ => { code := "out", map := some { content := "MAP" } }

/-- Witness for C6 at both source map modes. -/
theorem C6_generator_options_derivation_witness :
    (optsSourcesContent.sourceMap = true
      ∧ optsSourcesContent.sourceMapSourcesMode = SourceMapSourcesMode.SourcesContent
      ∧ ((buildEscodegenParams optsSourcesContent "var a;").sourceMap = some "sourceMap"
          ∧ (buildEscodegenParams optsSourcesContent "var a;").sourceContent = some "var a;"))
    ∧ (optsSourcesMode.sourceMap = true
      ∧ optsSourcesMode.sourceMapSourcesMode = SourceMapSourcesMode.Sources
      ∧ ((buildEscodegenParams optsSourcesMode "var a;").sourceMap =
            some (stringOrDefault optsSourcesMode.inputFileName "sourceMap")
          ∧ (buildEscodegenParams optsSourcesMode "var a;").sourceContent = none)) :=
  ⟨⟨rfl, rfl,
    (C6_generator_options_derivation optsSourcesContent "var a;" sampleGenerate
      sampleNodeA).2.2.1 rfl rfl⟩,
   ⟨rfl, rfl,
    (C6_generator_options_derivation optsSourcesMode "var a;" sampleGenerate
      sampleNodeA).2.2.2.1 rfl rfl⟩⟩

/-- C7: the map field of the returned result is the empty string whenever
the generator produces no map, and otherwise is the generator map converted
to a string; the result factory stores the map string as given, so the map
field of the result is always one of those two strings, never an absent
value. -/
theorem C7_result_map_never_absent (options : ObfOptions)
    (escodegenGenerate : ESNode → EscodegenParams → RawGeneratorOutput)
    (sourceCode : String) (astTree : ESNode) :
    ((escodegenGenerate astTree (buildEscodegenParams options sourceCode)).map = none →
      (generateCode options escodegenGenerate sourceCode astTree).map = "")
    ∧ (∀ m : SourceMapObject,
        (escodegenGenerate astTree (buildEscodegenParams options sourceCode)).map = some m →
        (generateCode options escodegenGenerate sourceCode astTree).map =
          SourceMapObject.toStr m)
    ∧ (∀ g : GeneratorOutput, (getObfuscationResult g).sourceMap = g.map) := by
  refine ⟨?_, ?_, fun g => rfl⟩
  · intro h
    show (match (escodegenGenerate astTree (buildEscodegenParams options sourceCode)).map with
          | some m => m.toStr
          | none => "") = ""
    rw [h]
  · intro m h
    show (match (escodegenGenerate astTree (buildEscodegenParams options sourceCode)).map with
          | some m2 => m2.toStr
          | none => "") = SourceMapObject.toStr m
    rw [h]

/-- Witness for C7 with a generator producing no map and one producing a
map object. -/
theorem C7_result_map_never_absent_witness :
    ((sampleGenerate sampleNodeA (buildEscodegenParams obfOptionsAllOff "x")).map = none
      ∧ (generateCode obfOptionsAllOff sampleGenerate "x" sampleNodeA).map = "")
    ∧ ((sampleGenerateWithMap sampleNodeA (buildEscodegenParams obfOptionsAllOff "x")).map =
          some { content := "MAP" }
      ∧ (generateCode obfOptionsAllOff sampleGenerateWithMap "x" sampleNodeA).map =
          SourceMapObject.toStr { content := "MAP" }) :=
  ⟨⟨rfl,
    (C7_result_map_never_absent obfOptionsAllOff sampleGenerate "x" sampleNodeA).1 rfl⟩,
   ⟨rfl,
    (C7_result_map_never_absent obfOptionsAllOff sampleGenerateWithMap "x" sampleNodeA).2.1
      { content := "MAP" } rfl⟩⟩

/-- C8: two obfuscation calls with the same source input, the same options
and the same collaborators (which a fixed random seed makes deterministic
functions, the seed itself included) return identical results, bit for bit
in the code string, whatever the clock readings and the process environment
are: the pipeline introduces no nondeterminism of its own. -/
theorem C8_determinism (options : ObfOptions) (c : Collaborators) (inputSeed : String)
    (env1 env2 : EnvInfo) (ts1 te1 ts2 te2 : Nat) (input : SourceInput) :
    (obfuscate options c inputSeed env1 ts1 te1 input).result.code =
      (obfuscate options c inputSeed env2 ts2 te2 input).result.code
    ∧ (obfuscate options c inputSeed env1 ts1 te1 input).result =
        (obfuscate options c inputSeed env2 ts2 te2 input).result :=
  ⟨rfl, rfl⟩

end JSObf
